import Mathlib

/-!
Shallow embedding of the Flask AI-assistant service in `src/app.py`.

JSON-like runtime values are modelled by `Value`.  Python attribute and
subscript errors are modelled with `Except String`, mirroring the fact
that every exception raised inside the `/ai-assistant` handler is caught
by its outer try/except block and converted into a 500 response.  The
outbound LLM call is a parameter `llm : String → Except String Value`
mapping the built prompt either to an exception (network error, non-2xx
status raised by `raise_for_status`) or to the parsed JSON body.
-/

/-- JSON-like values exchanged with the handler and the upstream API. -/
inductive Value where
  | null
  | bool (b : Bool)
  | int (n : Int)
  | str (s : String)
  | list (xs : List Value)
  | dict (entries : List (String × Value))

/-- First-match association lookup, modelling Python dict key access. -/
def dictLookup : List (String × Value) → String → Option Value
  | [], _ => none
  | (k, v) :: rest, key => if k = key then some v else dictLookup rest key

/-- Whether a value is a Python dict. -/
def Value.isDict : Value → Bool
  | .dict _ => true
  | _ => false

/-- Stringified error for calling `.get` on a value that is not a dict. -/
def pyAttrGetMsg : String := "AttributeError: object has no attribute get"

/-- Stringified error for calling `.lower` on a value that is not a string. -/
def pyAttrLowerMsg : String := "AttributeError: object has no attribute lower"

/-- Stringified error for calling `.strip` on a value that is not a string. -/
def pyAttrStripMsg : String := "AttributeError: object has no attribute strip"

/-- Stringified error for subscripting a value that does not support the key. -/
def typeErrorMsg : String := "TypeError: value is not subscriptable with this key"

/-- Stringified error for indexing past the end of a list. -/
def listIndexErrMsg : String := "IndexError: list index out of range"

/-- Stringified error for indexing past the end of a string. -/
def strIndexErrMsg : String := "IndexError: string index out of range"

/-- Stringified error for a missing dict key. -/
def keyErrorMsg (key : String) : String := "KeyError: " ++ key

/-- Python `v.get(key, dflt)`: dict lookup with a default; raises
AttributeError on every non-dict receiver. -/
def pyGetD (v : Value) (key : String) (dflt : Value) : Except String Value :=
  match v with
  | .dict es => .ok ((dictLookup es key).getD dflt)
  | _ => .error pyAttrGetMsg

/-- Python `v.get(key)`: one-argument dict get, defaulting to `None`. -/
def pyGetNone (v : Value) (key : String) : Except String Value :=
  match v with
  | .dict es => .ok ((dictLookup es key).getD .null)
  | _ => .error pyAttrGetMsg

/-- The whitespace characters stripped by Python `str.strip()`. -/
def isPyWS (c : Char) : Bool :=
  c = ' ' ∨ c = '\t' ∨ c = '\n' ∨ c = '\x0d' ∨ c = '\x0b' ∨ c = '\x0c'

/-- Python `s.strip()` on a string: remove leading and trailing
whitespace. -/
def stripString (s : String) : String :=
  String.mk (((s.data.dropWhile isPyWS).reverse.dropWhile isPyWS).reverse)

/-- Python `s.lower()` on a string: lowercase every character. -/
def lowerString (s : String) : String :=
  String.mk (s.data.map Char.toLower)

/-- Python `v.lower()`: only strings support it. -/
def pyLowerStr (v : Value) : Except String String :=
  match v with
  | .str s => .ok (lowerString s)
  | _ => .error pyAttrLowerMsg

/-- Python `v.strip()`: only strings support it. -/
def pyStripStr (v : Value) : Except String String :=
  match v with
  | .str s => .ok (stripString s)
  | _ => .error pyAttrStripMsg

/-- Python `v[key]` with a string key. -/
def pyIndexStr (v : Value) (key : String) : Except String Value :=
  match v with
  | .dict es =>
    match dictLookup es key with
    | some x => .ok x
    | none => .error (keyErrorMsg key)
  | _ => .error typeErrorMsg

/-- Python `v[i]` with a nonnegative integer index. -/
def pyIndexNat (v : Value) (i : Nat) : Except String Value :=
  match v with
  | .list xs =>
    match xs.get? i with
    | some x => .ok x
    | none => .error listIndexErrMsg
  | .str s =>
    match s.toList.get? i with
    | some c => .ok (.str (String.singleton c))
    | none => .error strIndexErrMsg
  | .dict _ => .error (keyErrorMsg (toString i))
  | _ => .error typeErrorMsg

/-- Embeds the loop body of `format_chat_history` (src/app.py lines 49-57):
for each message read `role` (defaulting to the empty string, then
lowercased) and `content` (defaulting to the empty string, then stripped),
keep lines for the roles user, assistant and bot, drop every other role,
and propagate the first Python exception. -/
def formatMsgs : List Value → Except String (List String)
  | [] => .ok []
  | msg :: rest =>
    match pyGetD msg "role" (.str "") with
    | .error e => .error e
    | .ok roleV =>
      match pyLowerStr roleV with
      | .error e => .error e
      | .ok role =>
        match pyGetD msg "content" (.str "") with
        | .error e => .error e
        | .ok contentV =>
          match pyStripStr contentV with
          | .error e => .error e
          | .ok content =>
            match formatMsgs rest with
            | .error e => .error e
            | .ok lines =>
              if role = "user" then .ok (("User: " ++ content) :: lines)
              else if role = "assistant" ∨ role = "bot" then
                .ok (("AI: " ++ content) :: lines)
              else .ok lines

/-- Embeds `format_chat_history` (src/app.py lines 43-57): values that are
not a Python list yield the empty string; list elements are processed by
`formatMsgs` and the surviving lines joined with newline separators. -/
def format_chat_history (history : Value) : Except String String :=
  match history with
  | .list msgs =>
    match formatMsgs msgs with
    | .error e => .error e
    | .ok lines => .ok (String.intercalate "\n" lines)
  | _ => .ok ""

/-- Embeds the f-string prompt template (src/app.py lines 87-123). -/
def build_prompt (doc chatHistory question : String) : String :=
  "\n📘 You are a helpful and professional in-app assistant for a mobile or web application. Your task is to answer users\x27 questions **only** using the official application documentation below.\n\n---\n\n### 📚 Application Documentation:\n"
  ++ doc
  ++ "\n\n---\n\n### 🧠 Conversation History:\n"
  ++ (if chatHistory = "" then "No prior conversation." else chatHistory)
  ++ "\n\n---\n\n### ❓ User\x27s Current Question:\n"
  ++ question
  ++ "\n\n---\n\n### ✅ Instructions:\n-**Answer in the same language the user used** (English or French).\n- Answer using only the information in the documentation.\n- Never mention the documentation or say \"based on the docs\"\n- Never reveal you\x27re an AI or bot\n- Use a friendly, clear, and helpful tone, like a knowledgeable support agent.\n- Avoid technical jargon unless it\x27s present in the documentation.\n- If the documentation contains a direct or inferred answer, respond concisely and professionally.\n- If the answer is NOT in the documentation, respond exactly with:\n\n    😊 \"I can\x27t help with that, but our support team can! 💬\n\n- Do NOT guess, speculate, or invent information.\n- Do NOT mention the documentation unless explicitly asked.\n- Do NOT reveal you are an AI or language model; respond as a helpful assistant.\n- Keep responses focused, informative, and approachable.\n"

/-- The JSON response produced by the handler: `error_response` yields
`failure` with its message and status code, `success_response` yields
`success` with the extracted answer, model identifier and token count. -/
inductive Resp where
  | failure (message : String) (statusCode : Nat)
  | success (answer : Value) (model : Value) (tokens : Value)

/-- Whether a response is a failure carrying the given status code. -/
def Resp.isFailureWithStatus : Resp → Nat → Bool
  | .failure _ c, n => c == n
  | .success _ _ _, _ => false

/-- The 500 message at src/app.py line 81. -/
def docMissingMsg : String :=
  "Application documentation is missing or could not be loaded."

/-- The 400 message at src/app.py line 83. -/
def questionMissingMsg : String := "Missing \x27question\x27 in request."

/-- Embeds `result["choices"][0]["message"]["content"]`
(src/app.py line 151). -/
def extract_message (result : Value) : Except String Value :=
  match pyIndexStr result "choices" with
  | .error e => .error e
  | .ok choices =>
    match pyIndexNat choices 0 with
    | .error e => .error e
    | .ok c0 =>
      match pyIndexStr c0 "message" with
      | .error e => .error e
      | .ok msg => pyIndexStr msg "content"

/-- Embeds `result.get("usage", \x7b\x7d).get("total_tokens", 0)`
(src/app.py line 156). -/
def tokensOf (result : Value) : Except String Value :=
  match pyGetD result "usage" (.dict []) with
  | .error e => .error e
  | .ok usage => pyGetD usage "total_tokens" (.int 0)

/-- Embeds the mapping of a parsed upstream JSON body to the success
response (src/app.py lines 150-157): first completion content, reported
model identifier via one-argument get, and token usage with default 0. -/
def map_llm_result (result : Value) : Except String Resp :=
  match extract_message result with
  | .error e => .error e
  | .ok message =>
    match pyGetNone result "model" with
    | .error e => .error e
    | .ok model =>
      match tokensOf result with
      | .error e => .error e
      | .ok tokens => .ok (.success message model tokens)

/-- Embeds the `/ai-assistant` handler `ai_assistant` (src/app.py lines
73-161).  `parsed` is the outcome of `request.get_json()`; `llm` maps the
built prompt to the outcome of the outbound POST plus `raise_for_status`
plus `.json()`.  The second component records whether the outbound call
was made.  Every `.error` arm models the outer `except Exception` clause,
which returns `error_response(str(e), 500)`. -/
def ai_assistant (doc : String) (parsed : Except String Value)
    (llm : String → Except String Value) : Resp × Bool :=
  match parsed with
  | .error e => (.failure e 500, false)
  | .ok data =>
    match pyGetD data "question" (.str "") with
    | .error e => (.failure e 500, false)
    | .ok qV =>
      match pyStripStr qV with
      | .error e => (.failure e 500, false)
      | .ok user_question =>
        match pyGetD data "history" (.list []) with
        | .error e => (.failure e 500, false)
        | .ok histV =>
          if doc = "" then (.failure docMissingMsg 500, false)
          else if user_question = "" then (.failure questionMissingMsg 400, false)
          else
            match format_chat_history histV with
            | .error e => (.failure e 500, false)
            | .ok chat_history =>
              match llm (build_prompt doc chat_history user_question) with
              | .error e => (.failure e 500, true)
              | .ok result =>
                match map_llm_result result with
                | .error e => (.failure e 500, true)
                | .ok resp => (resp, true)

/-! Specification-side definitions, written from the words of the claims
rather than from the source, for refinement-style comparisons. -/

/-- Whether an optional field value is absent or a string. -/
def strOrAbsent : Option Value → Bool
  | none => true
  | some (.str _) => true
  | some _ => false

/-- A conversation turn that is a dict whose role and content fields are
each absent or a string: the shapes on which a Python dict get followed
by lower or strip cannot raise. -/
def wellFormedTurn : Value → Bool
  | .dict es => strOrAbsent (dictLookup es "role") && strOrAbsent (dictLookup es "content")
  | _ => false

/-- A history value that is either not a list at all, or a list of
well-formed turns. -/
def wellFormedHistory : Value → Bool
  | .list msgs => msgs.all wellFormedTurn
  | _ => true

/-- Whether an `Except` computation finished without a Python exception. -/
def isOkE {α : Type} : Except String α → Bool
  | .ok _ => true
  | .error _ => false

/-- Modelled from the spec words of the amended C2: the string field of a
turn dict, defaulting to the empty string when absent. -/
def specFieldStr (es : List (String × Value)) (key : String) : String :=
  match dictLookup es key with
  | some (.str s) => s
  | _ => ""

/-- Modelled from the spec words of the amended C2: the line a single
turn contributes, with the role lowercased and the content stripped of
surrounding whitespace; unknown roles contribute nothing. -/
def turnLineSpec : Value → Option String
  | .dict es =>
    let role := lowerString (specFieldStr es "role")
    let content := stripString (specFieldStr es "content")
    if role = "user" then some ("User: " ++ content)
    else if role = "assistant" ∨ role = "bot" then some ("AI: " ++ content)
    else none
  | _ => none

/-- Spec-side reading of the conversation-history section of the prompt:
the literal placeholder when the formatted history is empty, and the
formatted history verbatim otherwise. -/
def historySection (chatHistory : String) : String :=
  if chatHistory = "" then "No prior conversation." else chatHistory

/-- Spec-side decomposition of the prompt: everything before the
conversation-history section. -/
def promptBeforeHistory (doc : String) : String :=
  "\n📘 You are a helpful and professional in-app assistant for a mobile or web application. Your task is to answer users\x27 questions **only** using the official application documentation below.\n\n---\n\n### 📚 Application Documentation:\n"
  ++ doc
  ++ "\n\n---\n\n### 🧠 Conversation History:\n"

/-- Spec-side decomposition of the prompt: everything after the
conversation-history section. -/
def promptAfterHistory (question : String) : String :=
  "\n\n---\n\n### ❓ User\x27s Current Question:\n"
  ++ question
  ++ "\n\n---\n\n### ✅ Instructions:\n-**Answer in the same language the user used** (English or French).\n- Answer using only the information in the documentation.\n- Never mention the documentation or say \"based on the docs\"\n- Never reveal you\x27re an AI or bot\n- Use a friendly, clear, and helpful tone, like a knowledgeable support agent.\n- Avoid technical jargon unless it\x27s present in the documentation.\n- If the documentation contains a direct or inferred answer, respond concisely and professionally.\n- If the answer is NOT in the documentation, respond exactly with:\n\n    😊 \"I can\x27t help with that, but our support team can! 💬\n\n- Do NOT guess, speculate, or invent information.\n- Do NOT mention the documentation unless explicitly asked.\n- Do NOT reveal you are an AI or language model; respond as a helpful assistant.\n- Keep responses focused, informative, and approachable.\n"

/-- An upstream double that always raises before producing a body. -/
def llmNever : String → Except String Value := fun _ => .error "no call"

/-- An upstream double raising a network-style error. -/
def llmBoom : String → Except String Value := fun _ => .error "boom"

/-- The well-formed upstream body used by the spec test vector. -/
def respHello : Value :=
  .dict [("model", .str "m1"),
         ("choices", .list [.dict [("message", .dict [("content", .str "Hello")])]]),
         ("usage", .dict [("total_tokens", .int 42)])]

/-- An upstream double answering with `respHello`. -/
def llmHello : String → Except String Value := fun _ => .ok respHello

/-! Helper lemmas shared between claims. -/

/-- On a turn whose field is absent or a string, the Python dict get with
an empty-string default produces exactly the spec-side string field. -/
theorem field_of_wf (es : List (String × Value)) (key : String)
    (h : strOrAbsent (dictLookup es key) = true) :
    (dictLookup es key).getD (Value.str "") = Value.str (specFieldStr es key) := by
  rcases ho : dictLookup es key with _ | v
  · simp [specFieldStr, ho]
  · rcases v with _ | b | n | s | xs | es2
    · exact absurd h (by simp [strOrAbsent, ho])
    · exact absurd h (by simp [strOrAbsent, ho])
    · exact absurd h (by simp [strOrAbsent, ho])
    · simp [specFieldStr, ho]
    · exact absurd h (by simp [strOrAbsent, ho])
    · exact absurd h (by simp [strOrAbsent, ho])

/-- On a list of well-formed turns the formatting loop raises nothing and
produces exactly the spec-side line of each turn, in order. -/
theorem formatMsgs_wf (msgs : List Value) (hwf : msgs.all wellFormedTurn = true) :
    formatMsgs msgs = .ok (msgs.filterMap turnLineSpec) := by
  induction msgs with
  | nil => rfl
  | cons m rest ih =>
    rw [List.all_cons, Bool.and_eq_true] at hwf
    obtain ⟨hm, hrest⟩ := hwf
    have ihr := ih hrest
    rcases m with _ | b | n | s | xs | es
    · exact absurd hm (by simp [wellFormedTurn])
    · exact absurd hm (by simp [wellFormedTurn])
    · exact absurd hm (by simp [wellFormedTurn])
    · exact absurd hm (by simp [wellFormedTurn])
    · exact absurd hm (by simp [wellFormedTurn])
    · simp only [wellFormedTurn, Bool.and_eq_true] at hm
      obtain ⟨hrole, hcontent⟩ := hm
      have hr := field_of_wf es "role" hrole
      have hc := field_of_wf es "content" hcontent
      simp only [formatMsgs, pyGetD, hr, hc, pyLowerStr, pyStripStr, ihr,
        List.filterMap_cons, turnLineSpec]
      by_cases h1 : lowerString (specFieldStr es "role") = "user"
      · simp [h1]
      · by_cases h2 : lowerString (specFieldStr es "role") = "assistant" ∨
            lowerString (specFieldStr es "role") = "bot"
        · simp [h1, h2]
        · simp [h1, h2]

/-! Claim theorems. -/

/-- C1, counterexample: a history list containing a non-dict element makes
`format_chat_history` raise (Python AttributeError on `.get`), so the
formatter is not total on arbitrary input shapes as the claim states. -/
theorem claim_C1_cex :
    format_chat_history (.list [.int 0]) = .error pyAttrGetMsg := rfl

/-- C1, amended: `format_chat_history` returns a string and never raises
for every history value that is not a list, and for every list whose
elements are all dicts with absent-or-string role and content fields; a
list element outside those shapes raises, and the exception is caught by
the route handler and mapped to a 500 Failure. -/
theorem claim_C1 (h : Value) (hwf : wellFormedHistory h = true) :
    isOkE (format_chat_history h) = true := by
  rcases h with _ | b | n | s | xs | es
  · rfl
  · rfl
  · rfl
  · rfl
  · simp only [wellFormedHistory] at hwf
    simp [format_chat_history, formatMsgs_wf xs hwf, isOkE]
  · rfl

/-- C1, witness: a concrete well-formed history on which the amended
theorem applies. -/
theorem claim_C1_witness :
    wellFormedHistory (.list [.dict [("role", .str "USER"), ("content", .str "hi")], .dict []]) = true ∧
    isOkE (format_chat_history (.list [.dict [("role", .str "USER"), ("content", .str "hi")], .dict []])) = true :=
  ⟨rfl, claim_C1 (.list [.dict [("role", .str "USER"), ("content", .str "hi")], .dict []]) rfl⟩

/-- C2, counterexample: the formatter strips surrounding whitespace from
the content, so a user turn with content " hi " yields the line
"User: hi" and not the claimed line with the content unchanged. -/
theorem claim_C2_cex :
    format_chat_history (.list [.dict [("role", .str "user"), ("content", .str " hi ")]]) = .ok "User: hi" ∧
    ("User: hi" : String) ≠ "User:  hi " :=
  ⟨rfl, by decide⟩

/-- C2, amended: for every list of turns that are dicts with
absent-or-string role and content fields, the formatter lowercases each
role, maps user to a "User: " line and assistant or bot to an "AI: "
line whose content is the turn content stripped of surrounding
whitespace (absent content behaving as the empty string), drops every
other role, and joins the surviving lines with newlines in input order. -/
theorem claim_C2 (msgs : List Value) (hwf : msgs.all wellFormedTurn = true) :
    format_chat_history (.list msgs) =
      .ok (String.intercalate "\n" (msgs.filterMap turnLineSpec)) := by
  simp [format_chat_history, formatMsgs_wf msgs hwf]

/-- C2, witness: the amended theorem applied to a concrete history with a
user turn, a bot turn and a dropped unknown role. -/
theorem claim_C2_witness :
    ([Value.dict [("role", Value.str "USER"), ("content", Value.str " hi ")],
      Value.dict [("role", Value.str "Bot"), ("content", Value.str "yo")],
      Value.dict [("role", Value.str "system"), ("content", Value.str "x")]].all wellFormedTurn = true) ∧
    format_chat_history (.list [Value.dict [("role", Value.str "USER"), ("content", Value.str " hi ")],
      Value.dict [("role", Value.str "Bot"), ("content", Value.str "yo")],
      Value.dict [("role", Value.str "system"), ("content", Value.str "x")]]) =
      .ok (String.intercalate "\n" ([Value.dict [("role", Value.str "USER"), ("content", Value.str " hi ")],
        Value.dict [("role", Value.str "Bot"), ("content", Value.str "yo")],
        Value.dict [("role", Value.str "system"), ("content", Value.str "x")]].filterMap turnLineSpec)) :=
  ⟨rfl, claim_C2 _ rfl⟩

/-- C3: for every request whose parsed body is a JSON object, an empty
reference corpus makes the handler return a Failure with status 500,
whatever the question field holds. -/
theorem claim_C3 (es : List (String × Value)) (llm : String → Except String Value) :
    (ai_assistant "" (.ok (.dict es)) llm).1.isFailureWithStatus 500 = true := by
  rcases hq : (dictLookup es "question").getD (Value.str "") with _ | b | n | s | xs | es2 <;>
    simp [ai_assistant, pyGetD, pyStripStr, hq, Resp.isFailureWithStatus]

/-- C4: with a non-empty corpus and a question that strips to the empty
string, the handler returns the 400 missing-question Failure and never
reaches the outbound call. -/
theorem claim_C4 (doc : String) (es : List (String × Value))
    (llm : String → Except String Value) (s : String)
    (hdoc : doc ≠ "")
    (hq : (dictLookup es "question").getD (Value.str "") = Value.str s)
    (hblank : stripString s = "") :
    ai_assistant doc (.ok (.dict es)) llm = (.failure questionMissingMsg 400, false) := by
  simp [ai_assistant, pyGetD, pyStripStr, hq, hblank, hdoc]

/-- C4, witness: a concrete whitespace-only question with a non-empty
corpus. -/
theorem claim_C4_witness :
    ("d" : String) ≠ "" ∧
    ai_assistant "d" (.ok (.dict [("question", .str "  ")])) llmNever =
      (.failure questionMissingMsg 400, false) :=
  ⟨by decide, claim_C4 "d" [("question", .str "  ")] llmNever "  " (by decide) rfl rfl⟩

/-- String concatenation is associative (used to relate the source
prompt template to its spec-side decomposition). -/
theorem string_append_assoc (a b c : String) : a ++ b ++ c = a ++ (b ++ c) := by
  apply String.ext
  simp [String.data_append, List.append_assoc]

/-- C5: once the handler reaches the outbound call, any exception raised
by the call itself or while extracting fields from its body is caught
and becomes a Failure with status 500 whose message is the stringified
error detail; nothing propagates past the handler, which still returns a
response pair. -/
theorem claim_C5 (doc : String) (es : List (String × Value))
    (llm : String → Except String Value) (s ch e : String)
    (hdoc : doc ≠ "")
    (hq : (dictLookup es "question").getD (Value.str "") = Value.str s)
    (hs : stripString s ≠ "")
    (hfmt : format_chat_history ((dictLookup es "history").getD (Value.list [])) = .ok ch)
    (herr : llm (build_prompt doc ch (stripString s)) = .error e ∨
      ∃ r, llm (build_prompt doc ch (stripString s)) = .ok r ∧ map_llm_result r = .error e) :
    ai_assistant doc (.ok (.dict es)) llm = (.failure e 500, true) := by
  rcases herr with hllm | ⟨r, hllm, hmap⟩
  · simp [ai_assistant, pyGetD, pyStripStr, hq, hs, hdoc, hfmt, hllm]
  · simp [ai_assistant, pyGetD, pyStripStr, hq, hs, hdoc, hfmt, hllm, hmap]

/-- C5, witness: a concrete valid request whose upstream call raises. -/
theorem claim_C5_witness :
    stripString "q" ≠ "" ∧
    ai_assistant "d" (.ok (.dict [("question", .str "q")])) llmBoom =
      (.failure "boom" 500, true) :=
  ⟨by decide,
   claim_C5 "d" [("question", .str "q")] llmBoom "q" "" "boom"
     (by decide) rfl (by decide) rfl (Or.inl rfl)⟩

/-- C6: on a valid request whose upstream call succeeds with a
well-formed body, the handler returns Success carrying the first
completion content, the reported model identifier and the reported
total_tokens; and when the usage field is absent the token count
defaults to 0. -/
theorem claim_C6 (doc : String) (es : List (String × Value))
    (llm : String → Except String Value) (s ch : String) (a m tk : Value)
    (hdoc : doc ≠ "")
    (hq : (dictLookup es "question").getD (Value.str "") = Value.str s)
    (hs : stripString s ≠ "")
    (hfmt : format_chat_history ((dictLookup es "history").getD (Value.list [])) = .ok ch)
    (hllm : llm (build_prompt doc ch (stripString s)) =
      .ok (.dict [("model", m),
        ("choices", .list [.dict [("message", .dict [("content", a)])]]),
        ("usage", .dict [("total_tokens", tk)])])) :
    ai_assistant doc (.ok (.dict es)) llm = (.success a m tk, true) ∧
    map_llm_result (.dict [("model", m),
        ("choices", .list [.dict [("message", .dict [("content", a)])]])]) =
      .ok (.success a m (.int 0)) := by
  constructor
  · simp [ai_assistant, pyGetD, pyStripStr, hq, hs, hdoc, hfmt, hllm,
      map_llm_result, extract_message, pyIndexStr, pyIndexNat, pyGetNone,
      tokensOf, dictLookup]
  · rfl

/-- C6, witness: the spec test vector with content Hello, model m1 and 42
total tokens. -/
theorem claim_C6_witness :
    stripString "q" ≠ "" ∧
    ai_assistant "d" (.ok (.dict [("question", .str "q")])) llmHello =
      (.success (.str "Hello") (.str "m1") (.int 42), true) :=
  ⟨by decide,
   (claim_C6 "d" [("question", .str "q")] llmHello "q" ""
     (.str "Hello") (.str "m1") (.int 42)
     (by decide) rfl (by decide) rfl rfl).1⟩

/-- With an empty corpus the handler always fails with status 500 before
the outbound call, whatever the parsed body. -/
theorem empty_doc_fails (parsed : Except String Value)
    (llm : String → Except String Value) :
    ∃ msg, ai_assistant "" parsed llm = (.failure msg 500, false) := by
  rcases parsed with e | data
  · exact ⟨e, rfl⟩
  · rcases data with _ | b | n | s | xs | es
    · exact ⟨pyAttrGetMsg, rfl⟩
    · exact ⟨pyAttrGetMsg, rfl⟩
    · exact ⟨pyAttrGetMsg, rfl⟩
    · exact ⟨pyAttrGetMsg, rfl⟩
    · exact ⟨pyAttrGetMsg, rfl⟩
    · rcases hq : (dictLookup es "question").getD (Value.str "") with _ | b | n | s | xs2 | es2
      · exact ⟨pyAttrStripMsg, by simp [ai_assistant, pyGetD, pyStripStr, hq]⟩
      · exact ⟨pyAttrStripMsg, by simp [ai_assistant, pyGetD, pyStripStr, hq]⟩
      · exact ⟨pyAttrStripMsg, by simp [ai_assistant, pyGetD, pyStripStr, hq]⟩
      · exact ⟨docMissingMsg, by simp [ai_assistant, pyGetD, pyStripStr, hq]⟩
      · exact ⟨pyAttrStripMsg, by simp [ai_assistant, pyGetD, pyStripStr, hq]⟩
      · exact ⟨pyAttrStripMsg, by simp [ai_assistant, pyGetD, pyStripStr, hq]⟩

/-- C7: a Success result is only possible with a non-empty reference
corpus; equivalently an empty corpus forces a Failure whatever the body
and the upstream behaviour. -/
theorem claim_C7 (doc : String) (parsed : Except String Value)
    (llm : String → Except String Value) (a m t : Value)
    (h : (ai_assistant doc parsed llm).1 = .success a m t) : doc ≠ "" := by
  intro hdoc
  subst hdoc
  obtain ⟨msg, hm⟩ := empty_doc_fails parsed llm
  rw [hm] at h
  simp at h

/-- C7, witness: a concrete Success run, from which the theorem yields
that its corpus is non-empty. -/
theorem claim_C7_witness :
    (ai_assistant "d" (.ok (.dict [("question", .str "q")])) llmHello).1 =
      .success (.str "Hello") (.str "m1") (.int 42) ∧ ("d" : String) ≠ "" :=
  ⟨rfl, claim_C7 "d" (.ok (.dict [("question", .str "q")])) llmHello
    (.str "Hello") (.str "m1") (.int 42) rfl⟩

/-- C8: the prompt builder is a pure deterministic function of the
corpus, the formatted history and the question: equal inputs give a
byte-identical prompt. -/
theorem claim_C8 (c1 h1 q1 c2 h2 q2 : String)
    (hc : c1 = c2) (hh : h1 = h2) (hq : q1 = q2) :
    build_prompt c1 h1 q1 = build_prompt c2 h2 q2 := by
  subst hc
  subst hh
  subst hq
  rfl

/-- C8, witness: the determinism theorem applied at concrete inputs. -/
theorem claim_C8_witness :
    ("c" : String) = "c" ∧ build_prompt "c" "h" "q" = build_prompt "c" "h" "q" :=
  ⟨rfl, claim_C8 "c" "h" "q" "c" "h" "q" rfl rfl rfl⟩

/-- C9: the prompt decomposes around a conversation-history section that
is the literal placeholder exactly when the formatted history is empty
and the formatted history verbatim otherwise. -/
theorem claim_C9 (doc ch q : String) :
    build_prompt doc ch q =
      promptBeforeHistory doc ++ historySection ch ++ promptAfterHistory q := by
  simp only [build_prompt, promptBeforeHistory, promptAfterHistory, historySection,
    string_append_assoc]

/-- C10: when the body is absent, unparsable, or parses to a non-object,
the handler returns a 500 Failure produced by the generic exception
handler, not the 400 missing-question Failure, and makes no outbound
call. -/
theorem claim_C10 (doc : String) (parsed : Except String Value)
    (llm : String → Except String Value)
    (h : ∀ v, parsed = .ok v → v.isDict = false) :
    (ai_assistant doc parsed llm).1.isFailureWithStatus 500 = true ∧
    (ai_assistant doc parsed llm).2 = false := by
  rcases parsed with e | v
  · simp [ai_assistant, Resp.isFailureWithStatus]
  · have hv := h v rfl
    rcases v with _ | b | n | s | xs | es
    · simp [ai_assistant, pyGetD, Resp.isFailureWithStatus]
    · simp [ai_assistant, pyGetD, Resp.isFailureWithStatus]
    · simp [ai_assistant, pyGetD, Resp.isFailureWithStatus]
    · simp [ai_assistant, pyGetD, Resp.isFailureWithStatus]
    · simp [ai_assistant, pyGetD, Resp.isFailureWithStatus]
    · exact absurd hv (by simp [Value.isDict])

/-- C10, witness: a body parsing to a JSON array. -/
theorem claim_C10_witness :
    (ai_assistant "" (.ok (.list [])) llmNever).1.isFailureWithStatus 500 = true ∧
    (ai_assistant "" (.ok (.list [])) llmNever).2 = false :=
  claim_C10 "" (.ok (.list [])) llmNever (by intro v hv; cases hv; rfl)
